import Mathlib

/-! Shallow embedding of the limit-order-book matching engine
    (src/src/simple_order_book.cpp, src/src/price_level.cpp and the headers),
    together with the multi-symbol simulator dispatch (OrderBookSimulator).

    Machine integers: all the C++ quantities are `uint64_t` and stay far from
    2^64 in every state reachable by the engine (fills are bounded by the
    minimum of two remaining quantities, so `filled_quantity ≤ quantity`
    everywhere); they are modelled as `Nat`.  `remaining_quantity` is the C++
    `quantity - filled_quantity`, which never underflows in such states, and
    matches Nat truncated subtraction there.

    Wall-clock timestamps (`Order.timestamp`, `Trade.timestamp`,
    `MarketDataSnapshot.timestamp`) are diagnostics never read by the matcher;
    the order/trade timestamps are dropped and the snapshot timestamp is
    abstracted as 0.  `stop_price` is unused by the matcher and dropped.

    The C++ shares one `Order` object (via `shared_ptr`) between the book's
    `orders_` index and the price level that holds it; the embedding keeps the
    authoritative record in the `orders` association list and lets the price
    levels hold order ids, mirroring every mutation of the shared object by a
    store update keyed by the order's id. -/

namespace LOB

/-- Order side (Side in the headers). -/
inductive Side where
  | BUY
  | SELL
deriving DecidableEq, Repr

/-- Order status (OrderStatus in the headers). -/
inductive OrderStatus where
  | NEW
  | PARTIALLY_FILLED
  | FILLED
  | CANCELLED
  | REJECTED
deriving DecidableEq, Repr

/-- Order type (OrderType in the headers). -/
inductive OrderType where
  | LIMIT
  | MARKET
  | STOP
deriving DecidableEq, Repr

/-- Order record (struct Order).  The parameterized C++ constructor sets
    `status = NEW` and `filled_quantity = 0`. -/
structure Order where
  order_id : Nat
  symbol_id : Nat
  side : Side
  order_type : OrderType
  quantity : Nat
  price : Nat
  status : OrderStatus
  filled_quantity : Nat
deriving DecidableEq, Repr

/-- Order::is_filled. -/
def Order.is_filled (o : Order) : Bool := o.filled_quantity == o.quantity

/-- Order::remaining_quantity. -/
def Order.remaining_quantity (o : Order) : Nat := o.quantity - o.filled_quantity

/-- Trade record (struct Trade); the wall-clock timestamp is dropped. -/
structure Trade where
  trade_id : Nat
  buy_order_id : Nat
  sell_order_id : Nat
  symbol_id : Nat
  quantity : Nat
  price : Nat
deriving DecidableEq, Repr

/-- PriceLevel: the `orders_` vector is kept as the list of order ids (the
    records themselves live in the book's order store), plus `total_quantity_`. -/
structure PriceLevel where
  orderIds : List Nat
  total_quantity : Nat
deriving DecidableEq, Repr

/-- Lookup in an association list keyed by Nat (std::unordered_map::find /
    std::map::find; first matching key wins). -/
def assocFind {α : Type} : List (Nat × α) → Nat → Option α
  | [], _ => none
  | (k, v) :: rest, key => if k = key then some v else assocFind rest key

/-- Insert-or-assign in an association list (unordered_map operator[] plus
    assignment): overwrites the first binding of the key, else appends. -/
def assocSet {α : Type} : List (Nat × α) → Nat → α → List (Nat × α)
  | [], key, v => [(key, v)]
  | (k, w) :: rest, key, v =>
    if k = key then (key, v) :: rest else (k, w) :: assocSet rest key v

/-- Insert-or-assign in a price-sorted association list (std::map operator[]
    plus assignment; keys kept in ascending order). -/
def mapSet {α : Type} : List (Nat × α) → Nat → α → List (Nat × α)
  | [], key, v => [(key, v)]
  | (k, w) :: rest, key, v =>
    if key < k then (key, v) :: (k, w) :: rest
    else if key = k then (key, v) :: rest
    else (k, w) :: mapSet rest key v

/-- Erase a key from a price map (std::map::erase; keys are unique in any map
    built by `mapSet`, so filtering removes exactly that binding). -/
def mapErase {α : Type} (l : List (Nat × α)) (key : Nat) : List (Nat × α) :=
  l.filter (fun e => e.1 != key)

/-- PriceLevel::add_order (price_level.cpp): push_back the order and add its
    FULL `quantity` (not its remaining quantity) to `total_quantity_`. -/
def PriceLevel.add_order (lvl : PriceLevel) (o : Order) : PriceLevel :=
  { orderIds := lvl.orderIds ++ [o.order_id]
    total_quantity := lvl.total_quantity + o.quantity }

/-- Remove the first occurrence of an id from a list (std::find_if + erase). -/
def removeFirstId : List Nat → Nat → List Nat
  | [], _ => []
  | i :: rest, id => if i = id then rest else i :: removeFirstId rest id

/-- PriceLevel::remove_order (price_level.cpp): if the id is present, subtract
    that order's FULL `quantity` from `total_quantity_` and drop it.  The C++
    reads the quantity through the level's own shared pointer; the embedding
    reads the same record through the book's order store. -/
def PriceLevel.remove_order (store : List (Nat × Order)) (lvl : PriceLevel) (id : Nat) :
    PriceLevel :=
  if lvl.orderIds.contains id then
    { orderIds := removeFirstId lvl.orderIds id
      total_quantity := lvl.total_quantity - (((assocFind store id).map Order.quantity).getD 0) }
  else lvl

/-- Scan for the first order in the list whose status is neither FILLED nor
    CANCELLED (body of PriceLevel::get_best_order).  An id missing from the
    store cannot arise in the C++ (the level owns the pointer) and is skipped. -/
def firstLiveOrder (store : List (Nat × Order)) : List Nat → Option Order
  | [] => none
  | i :: rest =>
    match assocFind store i with
    | some o =>
      if o.status ≠ OrderStatus.FILLED ∧ o.status ≠ OrderStatus.CANCELLED then some o
      else firstLiveOrder store rest
    | none => firstLiveOrder store rest

/-- PriceLevel::get_best_order (price_level.cpp): oldest live order, FIFO. -/
def PriceLevel.get_best_order (store : List (Nat × Order)) (lvl : PriceLevel) : Option Order :=
  firstLiveOrder store lvl.orderIds

/-- PriceLevel::is_empty (price_level.cpp): `total_quantity_ == 0`. -/
def PriceLevel.is_empty (lvl : PriceLevel) : Bool := lvl.total_quantity == 0

/-- The mutable state threaded through a matching pass: the order store, the
    trade-id / volume / count counters, and the trades emitted so far
    (`notify_trade` is observed through this list). -/
structure MatchState where
  store : List (Nat × Order)
  next_trade_id : Nat
  total_volume : Nat
  trade_count : Nat
  trades : List Trade
deriving DecidableEq, Repr

/-- SimpleOrderBook::execute_trade: `order1` is the incoming aggressor,
    `order2` the resting order.  The Trade price is `sell_order->price` —
    the SELL participant's price, whichever side was resting. -/
def execute_trade (sym : Nat) (c : MatchState) (o1 o2 : Order) (q : Nat) :
    MatchState × Order × Order :=
  let buy := if o1.side = Side.BUY then o1 else o2
  let sell := if o1.side = Side.SELL then o1 else o2
  let t : Trade := ⟨c.next_trade_id, buy.order_id, sell.order_id, sym, q, sell.price⟩
  let o1' := { o1 with filled_quantity := o1.filled_quantity + q }
  let o2' := { o2 with filled_quantity := o2.filled_quantity + q }
  let store' := assocSet (assocSet c.store o1'.order_id o1') o2'.order_id o2'
  (⟨store', c.next_trade_id + 1, c.total_volume + q, c.trade_count + 1, c.trades ++ [t]⟩,
   o1', o2')

/-- The inner `while (order->remaining_quantity() > 0)` loop of
    SimpleOrderBook::try_match_order, walking one price level.  Each round
    re-checks the aggressor's remaining quantity, takes the first live order
    `m` (dead entries are skipped but kept, as get_best_order leaves them in
    the vector), trades `min` of the remaining quantities, and if `m` is now
    fully filled removes it from the level (subtracting its full `quantity`
    from the level total) and marks it FILLED.  When `m` is NOT fully filled
    the aggressor's remaining quantity has just become 0 (the fill was
    `min`-bounded), so the loop's next condition check exits: the embedding
    returns at that point. -/
def matchInLevel (sym : Nat) (o : Order) (ids : List Nat) (tq : Nat) (c : MatchState) :
    Order × List Nat × Nat × MatchState :=
  match ids with
  | [] => (o, [], tq, c)
  | i :: rest =>
    if o.remaining_quantity = 0 then (o, i :: rest, tq, c)
    else
      match assocFind c.store i with
      | none =>
        let r := matchInLevel sym o rest tq c
        (r.1, i :: r.2.1, r.2.2.1, r.2.2.2)
      | some m =>
        if m.status = OrderStatus.FILLED ∨ m.status = OrderStatus.CANCELLED then
          let r := matchInLevel sym o rest tq c
          (r.1, i :: r.2.1, r.2.2.1, r.2.2.2)
        else
          let q := min o.remaining_quantity m.remaining_quantity
          let ec := execute_trade sym c o m q
          let c' := ec.1
          let o' := ec.2.1
          let m' := ec.2.2
          if m'.is_filled then
            let m2 := { m' with status := OrderStatus.FILLED }
            let c2 := { c' with store := assocSet c'.store m2.order_id m2 }
            matchInLevel sym o' rest (tq - m'.quantity) c2
          else
            (o', i :: rest, tq, c')

/-- The outer level loop of try_match_order for a BUY aggressor: `it` starts
    at `begin()` (lowest ask).  Each round checks remaining quantity, then the
    price predicate `price <= order->price`; after matching inside the level,
    an emptied level is erased (the iterator moves to the next level and the
    loop continues) and a surviving level is kept with `++it`. -/
def matchBuy (sym : Nat) (o : Order) (asks : List (Nat × PriceLevel)) (c : MatchState) :
    Order × List (Nat × PriceLevel) × MatchState :=
  match asks with
  | [] => (o, [], c)
  | (p, lvl) :: rest =>
    if o.remaining_quantity = 0 then (o, (p, lvl) :: rest, c)
    else if ¬ (p ≤ o.price) then (o, (p, lvl) :: rest, c)
    else
      let r := matchInLevel sym o lvl.orderIds lvl.total_quantity c
      let o' := r.1
      let lvl' : PriceLevel := ⟨r.2.1, r.2.2.1⟩
      let c' := r.2.2.2
      if lvl'.total_quantity = 0 then
        matchBuy sym o' rest c'
      else
        let r2 := matchBuy sym o' rest c'
        (r2.1, (p, lvl') :: r2.2.1, r2.2.2)

/-- The outer level loop of try_match_order for a SELL aggressor, on the bid
    ladder listed HIGHEST PRICE FIRST (the C++ walks the ascending `std::map`
    from `std::prev(end())` downwards).  The price predicate is
    `price >= order->price`.  When the current level is emptied the C++ runs
    `it = opposite_side.erase(it)`: the erased level is the greatest key still
    in the map (levels above it were already erased), so `erase` returns
    `end()` and the `while (it != opposite_side.end() && ...)` condition exits
    the loop — LOWER bid levels are abandoned even if the aggressor still has
    quantity and they are within its limit.  When the level survives, the C++
    steps `--it` (or breaks at `begin()`) and re-checks the loop condition;
    the level survives only when the aggressor's remaining quantity has
    reached 0, which the continuation re-check captures. -/
def matchSellRev (sym : Nat) (o : Order) (revBids : List (Nat × PriceLevel)) (c : MatchState) :
    Order × List (Nat × PriceLevel) × MatchState :=
  match revBids with
  | [] => (o, [], c)
  | (p, lvl) :: lower =>
    if o.remaining_quantity = 0 then (o, (p, lvl) :: lower, c)
    else if ¬ (p ≥ o.price) then (o, (p, lvl) :: lower, c)
    else
      let r := matchInLevel sym o lvl.orderIds lvl.total_quantity c
      let o' := r.1
      let lvl' : PriceLevel := ⟨r.2.1, r.2.2.1⟩
      let c' := r.2.2.2
      if lvl'.total_quantity = 0 then
        (o', lower, c')
      else
        let r2 := matchSellRev sym o' lower c'
        (r2.1, (p, lvl') :: r2.2.1, r2.2.2)

/-- SimpleOrderBook::try_match_order.  Returns `filled_quantity > 0` of the
    (updated) incoming order, the updated order, the updated opposite ladder
    (ascending by price, as the `std::map` stores it) and the match state. -/
def try_match_order (sym : Nat) (o : Order) (opp : List (Nat × PriceLevel)) (c : MatchState) :
    Bool × Order × List (Nat × PriceLevel) × MatchState :=
  if opp.isEmpty then (false, o, opp, c)
  else if o.side = Side.BUY then
    let r := matchBuy sym o opp c
    (decide (0 < r.1.filled_quantity), r.1, r.2.1, r.2.2)
  else
    let r := matchSellRev sym o opp.reverse c
    (decide (0 < r.1.filled_quantity), r.1, r.2.1.reverse, r.2.2)

/-- SimpleOrderBook state: ladders keyed ascending by price, the order index,
    and the counters. -/
structure SimpleOrderBook where
  symbol_id : Nat
  bids : List (Nat × PriceLevel)
  asks : List (Nat × PriceLevel)
  orders : List (Nat × Order)
  next_trade_id : Nat
  total_volume : Nat
  trade_count : Nat
deriving DecidableEq, Repr

/-- The SimpleOrderBook constructor: empty ladders, next_trade_id = 1. -/
def SimpleOrderBook.mkEmpty (sym : Nat) : SimpleOrderBook := ⟨sym, [], [], [], 1, 0, 0⟩

/-- Body of SimpleOrderBook::add_to_book on one ladder: find-or-create the
    level at `order->price`, then PriceLevel::add_order. -/
def addToLadder (lad : List (Nat × PriceLevel)) (o : Order) : List (Nat × PriceLevel) :=
  let lvl := (assocFind lad o.price).getD ⟨[], 0⟩
  mapSet lad o.price (lvl.add_order o)

/-- SimpleOrderBook::add_to_book: side selected by the order's side. -/
def SimpleOrderBook.add_to_book (b : SimpleOrderBook) (o : Order) : SimpleOrderBook :=
  if o.side = Side.BUY then { b with bids := addToLadder b.bids o }
  else { b with asks := addToLadder b.asks o }

/-- SimpleOrderBook::process_limit_order: match against the opposite ladder;
    if anything matched, status becomes FILLED or PARTIALLY_FILLED (resting
    the residual); if nothing matched, status NEW and the order rests.
    Returns the updated book and the trades emitted. -/
def SimpleOrderBook.process_limit_order (b : SimpleOrderBook) (o : Order) :
    SimpleOrderBook × List Trade :=
  let c0 : MatchState := ⟨b.orders, b.next_trade_id, b.total_volume, b.trade_count, []⟩
  let opp := if o.side = Side.BUY then b.asks else b.bids
  let r := try_match_order b.symbol_id o opp c0
  let matched := r.1
  let o1 := r.2.1
  let opp' := r.2.2.1
  let c' := r.2.2.2
  let b1 : SimpleOrderBook :=
    { b with
      bids := if o.side = Side.BUY then b.bids else opp'
      asks := if o.side = Side.BUY then opp' else b.asks
      orders := c'.store
      next_trade_id := c'.next_trade_id
      total_volume := c'.total_volume
      trade_count := c'.trade_count }
  if matched then
    if o1.is_filled then
      let o2 := { o1 with status := OrderStatus.FILLED }
      ({ b1 with orders := assocSet b1.orders o2.order_id o2 }, c'.trades)
    else
      let o2 := { o1 with status := OrderStatus.PARTIALLY_FILLED }
      let b2 := { b1 with orders := assocSet b1.orders o2.order_id o2 }
      (b2.add_to_book o2, c'.trades)
  else
    let o2 := { o1 with status := OrderStatus.NEW }
    let b2 := { b1 with orders := assocSet b1.orders o2.order_id o2 }
    (b2.add_to_book o2, c'.trades)

/-- SimpleOrderBook::process_market_order: match; FILLED / PARTIALLY_FILLED if
    anything matched (market orders never rest), REJECTED otherwise.  Note the
    matching predicate is the same price-bounded one as for limit orders. -/
def SimpleOrderBook.process_market_order (b : SimpleOrderBook) (o : Order) :
    SimpleOrderBook × List Trade :=
  let c0 : MatchState := ⟨b.orders, b.next_trade_id, b.total_volume, b.trade_count, []⟩
  let opp := if o.side = Side.BUY then b.asks else b.bids
  let r := try_match_order b.symbol_id o opp c0
  let matched := r.1
  let o1 := r.2.1
  let opp' := r.2.2.1
  let c' := r.2.2.2
  let b1 : SimpleOrderBook :=
    { b with
      bids := if o.side = Side.BUY then b.bids else opp'
      asks := if o.side = Side.BUY then opp' else b.asks
      orders := c'.store
      next_trade_id := c'.next_trade_id
      total_volume := c'.total_volume
      trade_count := c'.trade_count }
  let o2 :=
    if matched then
      if o1.is_filled then { o1 with status := OrderStatus.FILLED }
      else { o1 with status := OrderStatus.PARTIALLY_FILLED }
    else { o1 with status := OrderStatus.REJECTED }
  ({ b1 with orders := assocSet b1.orders o2.order_id o2 }, c'.trades)

/-- SimpleOrderBook::add_order: store the order in the index first, then
    dispatch on type (STOP is processed as a limit order).  The C++ returns
    `true` for every value of the three-constructor enum; the boolean is
    omitted here. -/
def SimpleOrderBook.add_order (b : SimpleOrderBook) (o : Order) :
    SimpleOrderBook × List Trade :=
  let b0 := { b with orders := assocSet b.orders o.order_id o }
  match o.order_type with
  | OrderType.LIMIT => b0.process_limit_order o
  | OrderType.MARKET => b0.process_market_order o
  | OrderType.STOP => b0.process_limit_order o

/-- SimpleOrderBook::cancel_order: fail on unknown id or status FILLED /
    CANCELLED; remove from the level only when `filled_quantity < quantity`
    (erasing the level if it becomes empty); set status CANCELLED; return
    true. -/
def SimpleOrderBook.cancel_order (b : SimpleOrderBook) (id : Nat) :
    Bool × SimpleOrderBook :=
  match assocFind b.orders id with
  | none => (false, b)
  | some o =>
    if o.status = OrderStatus.FILLED ∨ o.status = OrderStatus.CANCELLED then (false, b)
    else
      let b1 :=
        if o.filled_quantity < o.quantity then
          let side := if o.side = Side.BUY then b.bids else b.asks
          match assocFind side o.price with
          | none => b
          | some lvl =>
            let lvl' := PriceLevel.remove_order b.orders lvl id
            let side' := if lvl'.is_empty then mapErase side o.price else mapSet side o.price lvl'
            if o.side = Side.BUY then { b with bids := side' } else { b with asks := side' }
        else b
      let o' := { o with status := OrderStatus.CANCELLED }
      (true, { b1 with orders := assocSet b1.orders id o' })

/-- SimpleOrderBook::modify_order: cancel-and-replace keeping the same id; the
    replacement is a freshly constructed Order (status NEW, filled_quantity 0)
    with the new quantity and, when nonzero, the new price.  The final
    add_order always returns true for the three-constructor enum. -/
def SimpleOrderBook.modify_order (b : SimpleOrderBook) (id new_quantity new_price : Nat) :
    Bool × SimpleOrderBook × List Trade :=
  match assocFind b.orders id with
  | none => (false, b, [])
  | some o =>
    if o.status = OrderStatus.FILLED ∨ o.status = OrderStatus.CANCELLED then (false, b, [])
    else
      let b1 := (b.cancel_order id).2
      let repl : Order := ⟨id, o.symbol_id, o.side, o.order_type, new_quantity,
                           if 0 < new_price then new_price else o.price,
                           OrderStatus.NEW, 0⟩
      let r := b1.add_order repl
      (true, r.1, r.2)

/-- MarketDataSnapshot; its constructor zero-initialises every field except
    `symbol_id`.  The wall-clock timestamp is abstracted as 0. -/
structure MarketDataSnapshot where
  symbol_id : Nat
  timestamp : Nat
  best_bid_price : Nat
  best_bid_quantity : Nat
  best_ask_price : Nat
  best_ask_quantity : Nat
  last_trade_price : Nat
  last_trade_quantity : Nat
  volume : Nat
deriving DecidableEq, Repr

/-- MarketDataSnapshot(symbol): the all-zero snapshot. -/
def emptySnapshot (sym : Nat) : MarketDataSnapshot := ⟨sym, 0, 0, 0, 0, 0, 0, 0, 0⟩

/-- SimpleOrderBook::get_market_data: best bid from `std::prev(bids_.end())`
    (the greatest price), best ask from `asks_.begin()` (the least price),
    plus the cumulative volume. -/
def SimpleOrderBook.get_market_data (b : SimpleOrderBook) : MarketDataSnapshot :=
  let s0 := emptySnapshot b.symbol_id
  let s1 :=
    match b.bids.getLast? with
    | some e => { s0 with best_bid_price := e.1, best_bid_quantity := e.2.total_quantity }
    | none => s0
  let s2 :=
    match b.asks.head? with
    | some e => { s1 with best_ask_price := e.1, best_ask_quantity := e.2.total_quantity }
    | none => s1
  { s2 with volume := b.total_volume }

/-- SimpleOrderBook::get_bid_levels: up to `depth` (price, total_quantity)
    pairs walking the bid map from the highest price down. -/
def SimpleOrderBook.get_bid_levels (b : SimpleOrderBook) (depth : Nat) : List (Nat × Nat) :=
  (b.bids.reverse.take depth).map (fun e => (e.1, e.2.total_quantity))

/-- SimpleOrderBook::get_ask_levels: up to `depth` pairs from the lowest ask
    price up. -/
def SimpleOrderBook.get_ask_levels (b : SimpleOrderBook) (depth : Nat) : List (Nat × Nat) :=
  (b.asks.take depth).map (fun e => (e.1, e.2.total_quantity))

/-- OrderBookSimulator state: the per-symbol book registry.  The book class it
    delegates to is `OrderBook`, whose member definitions are not among the
    repository's translation units here; the book operations of this embedding
    are those of simple_order_book.cpp, the book implementation that is. -/
structure OrderBookSimulator where
  order_books : List (Nat × SimpleOrderBook)
deriving DecidableEq, Repr

/-- OrderBookSimulator::get_market_data: delegate to the symbol's book, or
    return the empty snapshot when the symbol has never been used. -/
def OrderBookSimulator.get_market_data (s : OrderBookSimulator) (sym : Nat) :
    MarketDataSnapshot :=
  match assocFind s.order_books sym with
  | some bk => bk.get_market_data
  | none => emptySnapshot sym

/-- OrderBookSimulator::get_bid_levels: delegate, or `{}`. -/
def OrderBookSimulator.get_bid_levels (s : OrderBookSimulator) (sym depth : Nat) :
    List (Nat × Nat) :=
  match assocFind s.order_books sym with
  | some bk => bk.get_bid_levels depth
  | none => []

/-- OrderBookSimulator::get_ask_levels: delegate, or `{}`. -/
def OrderBookSimulator.get_ask_levels (s : OrderBookSimulator) (sym depth : Nat) :
    List (Nat × Nat) :=
  match assocFind s.order_books sym with
  | some bk => bk.get_ask_levels depth
  | none => []

/-- Sum of the remaining quantities of the level's live (neither FILLED nor
    CANCELLED) orders.  Written from the spec's invariant wording
    (total_quantity = sum of remaining over live orders), to be compared with
    the code's `total_quantity`. -/
def liveRemainingSum (store : List (Nat × Order)) (lvl : PriceLevel) : Nat :=
  (lvl.orderIds.map (fun i =>
    match assocFind store i with
    | some o =>
      if o.status ≠ OrderStatus.FILLED ∧ o.status ≠ OrderStatus.CANCELLED then
        o.remaining_quantity
      else 0
    | none => 0)).sum

/-- Two resting bids, 100 at 4900 (id 1) and 100 at 5000 (id 2), in an
    otherwise empty book for symbol 100. -/
def twoBidBook : SimpleOrderBook :=
  (((SimpleOrderBook.mkEmpty 100).add_order
        ⟨1, 100, Side.BUY, OrderType.LIMIT, 100, 4900, OrderStatus.NEW, 0⟩).1.add_order
      ⟨2, 100, Side.BUY, OrderType.LIMIT, 100, 5000, OrderStatus.NEW, 0⟩).1

/-- The book after a SELL limit order id 3 for 300 at 4800 hits `twoBidBook`. -/
def crossedBook : SimpleOrderBook :=
  (twoBidBook.add_order ⟨3, 100, Side.SELL, OrderType.LIMIT, 300, 4800, OrderStatus.NEW, 0⟩).1

/-- A single resting ask: SELL id 1, 1000 @ 5000. -/
def oneAskBook : SimpleOrderBook :=
  ((SimpleOrderBook.mkEmpty 100).add_order
      ⟨1, 100, Side.SELL, OrderType.LIMIT, 1000, 5000, OrderStatus.NEW, 0⟩).1

/-- Result of submitting a MARKET BUY for 1000 (price field 0, as every market
    order in this repository is constructed) into `oneAskBook`. -/
def marketBuyRes : SimpleOrderBook × List Trade :=
  oneAskBook.add_order ⟨2, 100, Side.BUY, OrderType.MARKET, 1000, 0, OrderStatus.NEW, 0⟩

/-- Book after SELL id 1, 5000 @ 5000 rests and BUY id 2, 2000 @ 5000 partially
    fills it. -/
def partialFillBook : SimpleOrderBook :=
  (((SimpleOrderBook.mkEmpty 100).add_order
        ⟨1, 100, Side.SELL, OrderType.LIMIT, 5000, 5000, OrderStatus.NEW, 0⟩).1.add_order
      ⟨2, 100, Side.BUY, OrderType.LIMIT, 2000, 5000, OrderStatus.NEW, 0⟩).1

/-- FIFO scenario of the spec: BUY id 1 qty 1000 and BUY id 2 qty 2000 rest at
    5000, then SELL id 3 qty 1500 @ 5000 arrives; this is that third add. -/
def fifoRes : SimpleOrderBook × List Trade :=
  ((((SimpleOrderBook.mkEmpty 100).add_order
        ⟨1, 100, Side.BUY, OrderType.LIMIT, 1000, 5000, OrderStatus.NEW, 0⟩).1.add_order
      ⟨2, 100, Side.BUY, OrderType.LIMIT, 2000, 5000, OrderStatus.NEW, 0⟩).1.add_order
    ⟨3, 100, Side.SELL, OrderType.LIMIT, 1500, 5000, OrderStatus.NEW, 0⟩)

/-- A resting BUY id 1, 100 @ 5000, hit by a SELL id 2, 100 @ 4900: the add
    that emits the trade. -/
def sellAggressorRes : SimpleOrderBook × List Trade :=
  (((SimpleOrderBook.mkEmpty 100).add_order
      ⟨1, 100, Side.BUY, OrderType.LIMIT, 100, 5000, OrderStatus.NEW, 0⟩).1.add_order
    ⟨2, 100, Side.SELL, OrderType.LIMIT, 100, 4900, OrderStatus.NEW, 0⟩)

/-- A zero-quantity BUY limit order id 1 @ 5000 submitted to an empty book. -/
def zeroQtyRes : SimpleOrderBook × List Trade :=
  (SimpleOrderBook.mkEmpty 100).add_order
    ⟨1, 100, Side.BUY, OrderType.LIMIT, 0, 5000, OrderStatus.NEW, 0⟩

/-- A MARKET BUY on an empty book: rejected for lack of liquidity. -/
def rejectedBook : SimpleOrderBook :=
  ((SimpleOrderBook.mkEmpty 100).add_order
      ⟨1, 100, Side.BUY, OrderType.MARKET, 500, 0, OrderStatus.NEW, 0⟩).1

/-- Live BUY order 1000 @ 5000 with id 1, as stored after resting unmatched. -/
def liveOrder1 : Order := ⟨1, 100, Side.BUY, OrderType.LIMIT, 1000, 5000, OrderStatus.NEW, 0⟩

/-- A book holding only `liveOrder1` resting on the bid side. -/
def oneBidBook : SimpleOrderBook := ((SimpleOrderBook.mkEmpty 100).add_order liveOrder1).1

/-- The REJECTED record stored in `rejectedBook`. -/
def rejOrder : Order := ⟨1, 100, Side.BUY, OrderType.MARKET, 500, 0, OrderStatus.REJECTED, 0⟩

/-- The book after BUY id 1, 1000 @ 5000 rests and SELL id 2, 400 @ 5000
    partially fills it (order 1 then carries filled_quantity 400). -/
def partBidBook : SimpleOrderBook :=
  (((SimpleOrderBook.mkEmpty 100).add_order
        ⟨1, 100, Side.BUY, OrderType.LIMIT, 1000, 5000, OrderStatus.NEW, 0⟩).1.add_order
      ⟨2, 100, Side.SELL, OrderType.LIMIT, 400, 5000, OrderStatus.NEW, 0⟩).1

/-- Order 1 as stored in `partBidBook`: 400 already executed. -/
def partOrder1 : Order := ⟨1, 100, Side.BUY, OrderType.LIMIT, 1000, 5000, OrderStatus.NEW, 400⟩

/-- A simulator that has only ever seen symbol 100, whose book is empty. -/
def oneSymbolSim : OrderBookSimulator := ⟨[(100, SimpleOrderBook.mkEmpty 100)]⟩

/-- Zero-quantity MARKET BUY (canonical market price 0), fresh id 9. -/
def zMktOrder : Order := ⟨9, 100, Side.BUY, OrderType.MARKET, 0, 0, OrderStatus.NEW, 0⟩

/-- Zero-quantity SELL LIMIT at 4700, fresh id 9. -/
def zLimOrder : Order := ⟨9, 100, Side.SELL, OrderType.LIMIT, 0, 4700, OrderStatus.NEW, 0⟩

/-- The record `r` is price-coherent against the pre-state: it is either the
    incoming order (same id, same price) or carries the price of the pre-state
    store entry found at its id. -/
def coherentOrder (S0 : List (Nat × Order)) (o0 : Order) (r : Order) : Prop :=
  (r.order_id = o0.order_id ∧ r.price = o0.price) ∨
  (∃ m, assocFind S0 r.order_id = some m ∧ r.price = m.price)

/-- The trade's price is the SELL participant's limit price: either the
    incoming order's own price (when it is the seller) or the price of the
    pre-state store record found at the trade's sell_order_id. -/
def sellSidePrice (S0 : List (Nat × Order)) (o0 : Order) (t : Trade) : Prop :=
  (t.sell_order_id = o0.order_id ∧ t.price = o0.price) ∨
  (∃ m, assocFind S0 t.sell_order_id = some m ∧ t.price = m.price)

/-- A match state is coherent when every store entry is price-coherent and
    every emitted trade satisfies `sellSidePrice`. -/
def coherentState (S0 : List (Nat × Order)) (o0 : Order) (c : MatchState) : Prop :=
  (∀ e ∈ c.store, coherentOrder S0 o0 e.2) ∧ (∀ t ∈ c.trades, sellSidePrice S0 o0 t)

/-- The book before the sell aggressor arrives: BUY id 1, 100 @ 5000 resting. -/
def preSellBook : SimpleOrderBook :=
  ((SimpleOrderBook.mkEmpty 100).add_order
      ⟨1, 100, Side.BUY, OrderType.LIMIT, 100, 5000, OrderStatus.NEW, 0⟩).1

/-- The aggressor: SELL id 2, 100 @ 4900. -/
def sellAggr : Order := ⟨2, 100, Side.SELL, OrderType.LIMIT, 100, 4900, OrderStatus.NEW, 0⟩

/-! Association-list lemmas used by the claim proofs. -/

theorem assocFind_assocSet_self {α : Type} (s : List (Nat × α)) (k : Nat) (v : α) :
    assocFind (assocSet s k v) k = some v := by
  induction s with
  | nil => simp [assocSet, assocFind]
  | cons e rest ih =>
    by_cases h : e.1 = k
    · simp [assocSet, assocFind, h]
    · simp only [assocSet]
      rw [if_neg h]
      simp only [assocFind]
      rw [if_neg h]
      exact ih

theorem assocFind_mem {α : Type} {s : List (Nat × α)} {k : Nat} {v : α}
    (h : assocFind s k = some v) : (k, v) ∈ s := by
  induction s with
  | nil => simp [assocFind] at h
  | cons e rest ih =>
    by_cases he : e.1 = k
    · simp only [assocFind, if_pos he] at h
      have hv : e.2 = v := Option.some.inj h
      have hkv : e = (k, v) := Prod.ext he hv
      exact hkv ▸ List.mem_cons_self _ _
    · simp only [assocFind, if_neg he] at h
      exact List.mem_cons_of_mem _ (ih h)

theorem mem_assocSet {α : Type} {s : List (Nat × α)} {k : Nat} {v : α} {e : Nat × α}
    (h : e ∈ assocSet s k v) : e = (k, v) ∨ e ∈ s := by
  induction s with
  | nil =>
    simp only [assocSet, List.mem_singleton] at h
    exact Or.inl h
  | cons f rest ih =>
    by_cases hf : f.1 = k
    · simp only [assocSet, if_pos hf, List.mem_cons] at h
      rcases h with h | h
      · exact Or.inl h
      · exact Or.inr (List.mem_cons_of_mem _ h)
    · simp only [assocSet, if_neg hf, List.mem_cons] at h
      rcases h with h | h
      · exact Or.inr (h ▸ List.mem_cons_self _ _)
      · rcases ih h with h1 | h1
        · exact Or.inl h1
        · exact Or.inr (List.mem_cons_of_mem _ h1)

theorem assocFind_mapSet_self {α : Type} (l : List (Nat × α)) (k : Nat) (v : α) :
    assocFind (mapSet l k v) k = some v := by
  induction l with
  | nil => simp [mapSet, assocFind]
  | cons e rest ih =>
    by_cases hlt : k < e.1
    · simp only [mapSet]
      rw [if_pos hlt]
      simp [assocFind]
    · simp only [mapSet]
      rw [if_neg hlt]
      by_cases he : k = e.1
      · rw [if_pos he]
        simp [assocFind]
      · rw [if_neg he]
        simp only [assocFind]
        rw [if_neg (fun hc => he hc.symm)]
        exact ih

theorem assocFind_mapErase_self {α : Type} (l : List (Nat × α)) (k : Nat) :
    assocFind (mapErase l k) k = none := by
  induction l with
  | nil => rfl
  | cons e rest ih =>
    by_cases he : e.1 = k
    · simp only [mapErase, List.filter]
      rw [show (e.1 != k) = false by simp [he]]
      exact ih
    · simp only [mapErase, List.filter]
      rw [show (e.1 != k) = true by simp [he]]
      simp only [assocFind]
      rw [if_neg he]
      exact ih

/-- Claim C2 (code_bug): after adding a SELL limit order 300 @ 4800 to a book
    with bids 100 @ 5000 and 100 @ 4900, matching consumes only the 5000 level
    (std::map::erase of the greatest key returns end() and the loop exits),
    the residual 200 rests at 4800, and the book is CROSSED: both sides are
    non-empty and the best ask 4800 is below the best bid 4900, violating the
    claimed `best_bid < best_ask` invariant. -/
theorem crossed_book_after_sell_aggressor :
    crossedBook.bids ≠ [] ∧ crossedBook.asks ≠ [] ∧
    crossedBook.get_market_data.best_bid_price = 4900 ∧
    crossedBook.get_market_data.best_ask_price = 4800 ∧
    crossedBook.get_market_data.best_ask_price
      < crossedBook.get_market_data.best_bid_price := by
  decide

/-- Claim C3 (code_bug): a MARKET BUY with the canonical price 0 is REJECTED
    without any trade even though 1000 @ 5000 is resting on the ask side —
    try_match_order applies the limit predicate `price <= order->price`
    (5000 ≤ 0 fails) to market orders instead of an accept-any-price
    predicate, so no market BUY at price 0 ever matches. -/
theorem market_buy_rejected_despite_liquidity :
    oneAskBook.get_ask_levels 1 = [(5000, 1000)] ∧
    marketBuyRes.2 = [] ∧
    (assocFind marketBuyRes.1.orders 2).map Order.status = some OrderStatus.REJECTED ∧
    marketBuyRes.1.get_ask_levels 1 = [(5000, 1000)] := by
  decide

/-- Claim C4 (code_bug): after the resting order's partial fill, the ask level
    at 5000 still reports total_quantity 5000 (PriceLevel tracks the ORIGINAL
    quantity: add_order adds `order->quantity` and fills never decrement it),
    while the sum of remaining quantities over its live orders is 3000; the
    snapshot's best_ask_quantity reports the stale 5000 as well. -/
theorem level_total_quantity_is_stale :
    (assocFind partialFillBook.asks 5000).map PriceLevel.total_quantity = some 5000 ∧
    (assocFind partialFillBook.asks 5000).map (liveRemainingSum partialFillBook.orders)
      = some 3000 ∧
    partialFillBook.get_market_data.best_ask_quantity = 5000 ∧
    (assocFind partialFillBook.asks 5000).map PriceLevel.total_quantity
      ≠ (assocFind partialFillBook.asks 5000).map (liveRemainingSum partialFillBook.orders) := by
  decide

/-- Claim C7 (code_bug): the two fills do come in FIFO order (1000 against
    id 1, then 500 against id 2), id 1 and id 3 end FILLED and id 2 retains
    remaining 1500 — but id 2's status stays NEW, not PARTIALLY_FILLED:
    try_match_order only ever writes FILLED into a resting order's status, so
    a partially filled resting order keeps its previous status. -/
theorem fifo_partial_resting_status :
    fifoRes.2 = [⟨1, 1, 3, 100, 1000, 5000⟩, ⟨2, 2, 3, 100, 500, 5000⟩] ∧
    (assocFind fifoRes.1.orders 1).map Order.status = some OrderStatus.FILLED ∧
    (assocFind fifoRes.1.orders 3).map Order.status = some OrderStatus.FILLED ∧
    (assocFind fifoRes.1.orders 2).map Order.remaining_quantity = some 1500 ∧
    (assocFind fifoRes.1.orders 2).map Order.status = some OrderStatus.NEW ∧
    (assocFind fifoRes.1.orders 2).map Order.status ≠ some OrderStatus.PARTIALLY_FILLED := by
  decide

/-- Claim C1 counterexample: the resting (passive) order id 1 has price 5000,
    but the emitted trade carries price 4900 — the SELL aggressor's own price,
    because execute_trade always prices the trade at `sell_order->price`.  So
    the trade price is NOT the resting order's price when the aggressor sells. -/
theorem trade_price_not_passive_counterexample :
    (assocFind sellAggressorRes.1.orders 1).map Order.price = some 5000 ∧
    sellAggressorRes.2.map Trade.price = [4900] ∧
    sellAggressorRes.2.map Trade.price ≠ [5000] := by
  decide

/-- Claim C5 counterexample: add_order never validates quantity, so a
    zero-quantity LIMIT order is NOT rejected: it gets status NEW and rests in
    the bid ladder at its price (with zero level quantity), refuting the
    claimed pre-matching rejection. -/
theorem zero_quantity_limit_rests_counterexample :
    (assocFind zeroQtyRes.1.orders 1).map Order.status = some OrderStatus.NEW ∧
    (assocFind zeroQtyRes.1.bids 5000).map PriceLevel.orderIds = some [1] ∧
    zeroQtyRes.2 = [] ∧
    (assocFind zeroQtyRes.1.orders 1).map Order.status ≠ some OrderStatus.REJECTED := by
  decide

/-- Claim C6 counterexample: order id 1 is terminal with status REJECTED, yet
    cancel_order mutates it — the guard only checks FILLED and CANCELLED, so
    the cancel returns true and overwrites the status with CANCELLED. -/
theorem cancel_mutates_rejected_counterexample :
    (assocFind rejectedBook.orders 1).map Order.status = some OrderStatus.REJECTED ∧
    (rejectedBook.cancel_order 1).1 = true ∧
    (assocFind (rejectedBook.cancel_order 1).2.orders 1).map Order.status
      = some OrderStatus.CANCELLED ∧
    some OrderStatus.CANCELLED ≠ some OrderStatus.REJECTED := by
  decide

/-- Behaviour of cancel_order on a live (not FILLED, not CANCELLED) known id:
    returns true and rewrites the stored record's status to CANCELLED.  The
    removal from the book runs exactly when `filled_quantity < quantity`: then
    the level at the order's price is replaced by its removal result (erased
    when it becomes empty); otherwise — as for a zero-quantity resting order —
    the ladders are left untouched. -/
theorem cancel_order_live (b : SimpleOrderBook) (id : Nat) (o : Order)
    (h : assocFind b.orders id = some o)
    (h1 : o.status ≠ OrderStatus.FILLED) (h2 : o.status ≠ OrderStatus.CANCELLED) :
    (b.cancel_order id).1 = true ∧
    (b.cancel_order id).2.orders
      = assocSet b.orders id { o with status := OrderStatus.CANCELLED } ∧
    (o.filled_quantity < o.quantity →
      ∀ lvl, assocFind (if o.side = Side.BUY then b.bids else b.asks) o.price = some lvl →
        assocFind (if o.side = Side.BUY then (b.cancel_order id).2.bids
                   else (b.cancel_order id).2.asks) o.price
          = (if (PriceLevel.remove_order b.orders lvl id).total_quantity = 0 then none
             else some (PriceLevel.remove_order b.orders lvl id))) ∧
    (¬ o.filled_quantity < o.quantity →
      (b.cancel_order id).2.bids = b.bids ∧ (b.cancel_order id).2.asks = b.asks) := by
  have hst : ¬ (o.status = OrderStatus.FILLED ∨ o.status = OrderStatus.CANCELLED) := by
    rintro (hc | hc)
    · exact h1 hc
    · exact h2 hc
  refine ⟨?_, ?_, ?_, ?_⟩
  · unfold SimpleOrderBook.cancel_order
    rw [h]
    dsimp only
    rw [if_neg hst]
  · unfold SimpleOrderBook.cancel_order
    rw [h]
    dsimp only
    rw [if_neg hst]
    split
    · split
      · rfl
      · split <;> rfl
    · rfl
  · intro hfq lvl hlv
    unfold SimpleOrderBook.cancel_order
    rw [h]
    dsimp only
    rw [if_neg hst]
    simp only [if_pos hfq, hlv]
    by_cases hq : (PriceLevel.remove_order b.orders lvl id).total_quantity = 0
    · have hem : (PriceLevel.remove_order b.orders lvl id).is_empty = true := by
        simp [PriceLevel.is_empty, hq]
      rw [if_pos hq]
      rcases hsd : o.side with _ | _
      · simp only [hsd, if_pos rfl] at *
        simp only [hem, if_pos rfl]
        exact assocFind_mapErase_self _ _
      · have hne : ¬ (Side.SELL = Side.BUY) := by decide
        simp only [hsd, if_neg hne] at *
        simp only [hem, if_pos rfl]
        exact assocFind_mapErase_self _ _
    · have hem : ¬ ((PriceLevel.remove_order b.orders lvl id).is_empty = true) := by
        simp [PriceLevel.is_empty, hq]
      rw [if_neg hq]
      rcases hsd : o.side with _ | _
      · simp only [hsd, if_pos rfl] at *
        simp only [if_neg hem]
        exact assocFind_mapSet_self _ _ _
      · have hne : ¬ (Side.SELL = Side.BUY) := by decide
        simp only [hsd, if_neg hne] at *
        simp only [if_neg hem]
        exact assocFind_mapSet_self _ _ _
  · intro hfq
    unfold SimpleOrderBook.cancel_order
    rw [h]
    dsimp only
    rw [if_neg hst]
    rw [if_neg hfq]
    exact ⟨rfl, rfl⟩

/-- Claim C8 (corrected): cancel_order returns false when the id is unknown or
    the order's status is already FILLED or CANCELLED; otherwise it returns
    true and sets the stored status to CANCELLED (so a second cancel of the
    same id returns false).  The order is removed from its price level (the
    level deleted when it becomes empty) exactly when filled < quantity —
    true of every resting order of positive quantity — while in the remaining
    case (a zero-quantity resting order) both ladders are left untouched: the
    cancelled order stays queued in its level. -/
theorem cancel_order_spec (b : SimpleOrderBook) (id : Nat) :
    (assocFind b.orders id = none → b.cancel_order id = (false, b)) ∧
    (∀ o, assocFind b.orders id = some o →
      (o.status = OrderStatus.FILLED ∨ o.status = OrderStatus.CANCELLED) →
      b.cancel_order id = (false, b)) ∧
    (∀ o, assocFind b.orders id = some o →
      o.status ≠ OrderStatus.FILLED → o.status ≠ OrderStatus.CANCELLED →
      (b.cancel_order id).1 = true ∧
      assocFind (b.cancel_order id).2.orders id
        = some { o with status := OrderStatus.CANCELLED } ∧
      ((b.cancel_order id).2.cancel_order id).1 = false ∧
      (o.filled_quantity < o.quantity →
        ∀ lvl, assocFind (if o.side = Side.BUY then b.bids else b.asks) o.price = some lvl →
          assocFind (if o.side = Side.BUY then (b.cancel_order id).2.bids
                     else (b.cancel_order id).2.asks) o.price
            = (if (PriceLevel.remove_order b.orders lvl id).total_quantity = 0 then none
               else some (PriceLevel.remove_order b.orders lvl id))) ∧
      (¬ o.filled_quantity < o.quantity →
        (b.cancel_order id).2.bids = b.bids ∧ (b.cancel_order id).2.asks = b.asks)) := by
  refine ⟨?_, ?_, ?_⟩
  · intro h
    unfold SimpleOrderBook.cancel_order
    rw [h]
  · intro o h hst
    unfold SimpleOrderBook.cancel_order
    rw [h]
    dsimp only
    rw [if_pos hst]
  · intro o h h1 h2
    obtain ⟨hA, hB, hC, hD⟩ := cancel_order_live b id o h h1 h2
    refine ⟨hA, ?_, ?_, hC, hD⟩
    · rw [hB]
      exact assocFind_assocSet_self _ _ _
    · set b2 := (b.cancel_order id).2 with hb2
      have hl : assocFind b2.orders id = some { o with status := OrderStatus.CANCELLED } := by
        rw [hb2, hB]
        exact assocFind_assocSet_self _ _ _
      unfold SimpleOrderBook.cancel_order
      rw [hl]
      dsimp only
      rw [if_pos (Or.inr rfl)]

/-- Witness for C8 at the spec's concrete scenario: cancelling the live
    resting order returns true and leaves it CANCELLED, the bid ladder
    empties, a second cancel returns false, and cancelling unknown id 999
    returns false. -/
theorem cancel_order_spec_witness :
    (oneBidBook.cancel_order 1).1 = true ∧
    assocFind (oneBidBook.cancel_order 1).2.orders 1
      = some { liveOrder1 with status := OrderStatus.CANCELLED } ∧
    ((oneBidBook.cancel_order 1).2.cancel_order 1).1 = false ∧
    (oneBidBook.cancel_order 1).2.get_bid_levels 5 = [] ∧
    (oneBidBook.cancel_order 999).1 = false := by
  have hmain := (cancel_order_spec oneBidBook 1).2.2 liveOrder1 (by decide) (by decide) (by decide)
  exact ⟨hmain.1, hmain.2.1, hmain.2.2.1, by decide, by decide⟩

/-- Claim C8 counterexample: the zero-quantity BUY limit order of `zeroQtyRes`
    rests live (status NEW) at 5000.  Cancelling it returns true and sets its
    status to CANCELLED, but the removal guard `filled_quantity < quantity`
    (0 < 0) fails, so the order is NOT removed from its price level and the
    (empty) level is NOT deleted: the level at 5000 still holds id 1 and
    get_bid_levels still reports (5000, 0) — refuting the unconditional
    removal clause of the original claim. -/
theorem cancel_zero_qty_not_removed_counterexample :
    (assocFind zeroQtyRes.1.orders 1).map Order.status = some OrderStatus.NEW ∧
    (zeroQtyRes.1.cancel_order 1).1 = true ∧
    (assocFind (zeroQtyRes.1.cancel_order 1).2.orders 1).map Order.status
      = some OrderStatus.CANCELLED ∧
    (assocFind (zeroQtyRes.1.cancel_order 1).2.bids 5000).map PriceLevel.orderIds
      = some [1] ∧
    (zeroQtyRes.1.cancel_order 1).2.get_bid_levels 5 = [(5000, 0)] := by
  decide

/-- Claim C6 (corrected): FILLED and CANCELLED orders are protected — cancel
    and modify both return false and leave the book unchanged — but REJECTED
    is NOT terminal for cancel_order: cancelling a REJECTED order returns true
    and overwrites its status with CANCELLED. -/
theorem terminal_status_spec (b : SimpleOrderBook) (id q p : Nat) (o : Order)
    (h : assocFind b.orders id = some o) :
    ((o.status = OrderStatus.FILLED ∨ o.status = OrderStatus.CANCELLED) →
      b.cancel_order id = (false, b) ∧ b.modify_order id q p = (false, b, [])) ∧
    (o.status = OrderStatus.REJECTED →
      (b.cancel_order id).1 = true ∧
      assocFind (b.cancel_order id).2.orders id
        = some { o with status := OrderStatus.CANCELLED }) := by
  constructor
  · intro hst
    constructor
    · unfold SimpleOrderBook.cancel_order
      rw [h]
      dsimp only
      rw [if_pos hst]
    · unfold SimpleOrderBook.modify_order
      rw [h]
      dsimp only
      rw [if_pos hst]
  · intro hr
    have h1 : o.status ≠ OrderStatus.FILLED := by rw [hr]; decide
    have h2 : o.status ≠ OrderStatus.CANCELLED := by rw [hr]; decide
    obtain ⟨hA, hB, _⟩ := cancel_order_live b id o h h1 h2
    refine ⟨hA, ?_⟩
    rw [hB]
    exact assocFind_assocSet_self _ _ _

/-- Witness for C6: the REJECTED order in `rejectedBook` is cancellable (true,
    status overwritten), while the FILLED order id 2 of `partialFillBook` is
    untouchable by cancel and modify. -/
theorem terminal_status_witness :
    ((rejectedBook.cancel_order 1).1 = true ∧
      assocFind (rejectedBook.cancel_order 1).2.orders 1
        = some { rejOrder with status := OrderStatus.CANCELLED }) ∧
    partialFillBook.cancel_order 2 = (false, partialFillBook) ∧
    partialFillBook.modify_order 2 7 7 = (false, partialFillBook, []) := by
  refine ⟨(terminal_status_spec rejectedBook 1 0 0 rejOrder (by decide)).2 rfl, by decide, by decide⟩

/-- Claim C10 (confirmed): on a live order, modify_order is exactly
    cancel-then-add of a replacement Order that keeps the id, side, type and
    symbol, carries the new quantity and the new price (old price when the new
    one is 0), and is constructed with status NEW and filled_quantity 0 — the
    executed quantity of the original is discarded. -/
theorem modify_order_replacement (b : SimpleOrderBook) (id newq newp : Nat) (o : Order)
    (h : assocFind b.orders id = some o)
    (h1 : o.status ≠ OrderStatus.FILLED) (h2 : o.status ≠ OrderStatus.CANCELLED) :
    ∃ repl : Order,
      b.modify_order id newq newp = (true, (b.cancel_order id).2.add_order repl) ∧
      repl.order_id = id ∧ repl.status = OrderStatus.NEW ∧ repl.filled_quantity = 0 ∧
      repl.quantity = newq ∧ repl.side = o.side ∧ repl.order_type = o.order_type ∧
      repl.symbol_id = o.symbol_id ∧
      repl.price = (if 0 < newp then newp else o.price) := by
  have hst : ¬ (o.status = OrderStatus.FILLED ∨ o.status = OrderStatus.CANCELLED) := by
    rintro (hc | hc)
    · exact h1 hc
    · exact h2 hc
  refine ⟨⟨id, o.symbol_id, o.side, o.order_type, newq,
          if 0 < newp then newp else o.price, OrderStatus.NEW, 0⟩,
          ?_, rfl, rfl, rfl, rfl, rfl, rfl, rfl, rfl⟩
  unfold SimpleOrderBook.modify_order
  rw [h]
  dsimp only
  rw [if_neg hst]

/-- Witness for C10: modifying the partially filled order 1 to quantity 1000
    succeeds, the replacement record shows 0 filled and status NEW, and a
    subsequent SELL of 1000 @ 5000 trades the FULL new quantity 1000 — the
    400 already executed were discarded. -/
theorem modify_order_replacement_witness :
    (∃ repl : Order,
      partBidBook.modify_order 1 1000 0
        = (true, (partBidBook.cancel_order 1).2.add_order repl) ∧
      repl.order_id = 1 ∧ repl.status = OrderStatus.NEW ∧ repl.filled_quantity = 0 ∧
      repl.quantity = 1000 ∧ repl.side = partOrder1.side ∧
      repl.order_type = partOrder1.order_type ∧
      repl.symbol_id = partOrder1.symbol_id ∧
      repl.price = (if 0 < 0 then 0 else partOrder1.price)) ∧
    (assocFind (partBidBook.modify_order 1 1000 0).2.1.orders 1).map Order.filled_quantity
      = some 0 ∧
    (assocFind (partBidBook.modify_order 1 1000 0).2.1.orders 1).map Order.status
      = some OrderStatus.NEW ∧
    ((partBidBook.modify_order 1 1000 0).2.1.add_order
        ⟨3, 100, Side.SELL, OrderType.LIMIT, 1000, 5000, OrderStatus.NEW, 0⟩).2.map
      Trade.quantity = [1000] := by
  refine ⟨modify_order_replacement partBidBook 1 1000 0 partOrder1
            (by decide) (by decide) (by decide), by decide, by decide, by decide⟩

/-- Claim C9 (confirmed): the simulator's read-only queries are total Lean
    functions; for a symbol that has never been used they return the all-zero
    snapshot and empty level lists, and for a symbol whose book has empty
    ladders they return zero best-bid/ask fields and empty level lists. -/
theorem queries_total (s : OrderBookSimulator) (sym depth : Nat) :
    (assocFind s.order_books sym = none →
      s.get_market_data sym = emptySnapshot sym ∧
      s.get_bid_levels sym depth = [] ∧
      s.get_ask_levels sym depth = []) ∧
    (∀ bk, assocFind s.order_books sym = some bk → bk.bids = [] → bk.asks = [] →
      (s.get_market_data sym).best_bid_price = 0 ∧
      (s.get_market_data sym).best_bid_quantity = 0 ∧
      (s.get_market_data sym).best_ask_price = 0 ∧
      (s.get_market_data sym).best_ask_quantity = 0 ∧
      s.get_bid_levels sym depth = [] ∧
      s.get_ask_levels sym depth = []) := by
  constructor
  · intro h
    refine ⟨?_, ?_, ?_⟩
    · unfold OrderBookSimulator.get_market_data
      rw [h]
    · unfold OrderBookSimulator.get_bid_levels
      rw [h]
    · unfold OrderBookSimulator.get_ask_levels
      rw [h]
  · intro bk h hb ha
    have hsnap : s.get_market_data sym
        = { emptySnapshot bk.symbol_id with volume := bk.total_volume } := by
      unfold OrderBookSimulator.get_market_data
      rw [h]
      dsimp only
      unfold SimpleOrderBook.get_market_data
      rw [hb, ha]
      rfl
    have hbl : s.get_bid_levels sym depth = [] := by
      unfold OrderBookSimulator.get_bid_levels
      rw [h]
      dsimp only
      unfold SimpleOrderBook.get_bid_levels
      rw [hb]
      simp
    have hal : s.get_ask_levels sym depth = [] := by
      unfold OrderBookSimulator.get_ask_levels
      rw [h]
      dsimp only
      unfold SimpleOrderBook.get_ask_levels
      rw [ha]
      simp
    rw [hsnap]
    exact ⟨rfl, rfl, rfl, rfl, hbl, hal⟩

/-- Witness for C9: symbol 7 was never used (all-zero snapshot, empty lists);
    symbol 100 exists with an empty book (zero best fields, empty lists). -/
theorem queries_total_witness :
    (oneSymbolSim.get_market_data 7 = emptySnapshot 7 ∧
      oneSymbolSim.get_bid_levels 7 3 = [] ∧
      oneSymbolSim.get_ask_levels 7 3 = []) ∧
    ((oneSymbolSim.get_market_data 100).best_bid_price = 0 ∧
      (oneSymbolSim.get_market_data 100).best_bid_quantity = 0 ∧
      (oneSymbolSim.get_market_data 100).best_ask_price = 0 ∧
      (oneSymbolSim.get_market_data 100).best_ask_quantity = 0 ∧
      oneSymbolSim.get_bid_levels 100 3 = [] ∧
      oneSymbolSim.get_ask_levels 100 3 = []) := by
  exact ⟨(queries_total oneSymbolSim 7 3).1 (by decide),
         (queries_total oneSymbolSim 100 3).2 (SimpleOrderBook.mkEmpty 100) (by decide) rfl rfl⟩

/-- A zero-remaining incoming order makes the BUY level loop a no-op. -/
theorem matchBuy_rem_zero (sym : Nat) (o : Order) (l : List (Nat × PriceLevel))
    (c : MatchState) (h : o.remaining_quantity = 0) :
    matchBuy sym o l c = (o, l, c) := by
  cases l with
  | nil => rfl
  | cons e rest =>
    obtain ⟨p, lvl⟩ := e
    unfold matchBuy
    rw [if_pos h]

/-- A zero-remaining incoming order makes the SELL level loop a no-op. -/
theorem matchSellRev_rem_zero (sym : Nat) (o : Order) (l : List (Nat × PriceLevel))
    (c : MatchState) (h : o.remaining_quantity = 0) :
    matchSellRev sym o l c = (o, l, c) := by
  cases l with
  | nil => rfl
  | cons e rest =>
    obtain ⟨p, lvl⟩ := e
    unfold matchSellRev
    rw [if_pos h]

/-- try_match_order is a no-op (and reports no match) for an incoming order
    with zero remaining and zero filled quantity. -/
theorem try_match_noop (sym : Nat) (o : Order) (opp : List (Nat × PriceLevel))
    (c : MatchState) (hrem : o.remaining_quantity = 0) (hf : o.filled_quantity = 0) :
    try_match_order sym o opp c = (false, o, opp, c) := by
  unfold try_match_order
  by_cases he : opp.isEmpty = true
  · rw [if_pos he]
  · rw [if_neg he]
    by_cases hs : o.side = Side.BUY
    · rw [if_pos hs, matchBuy_rem_zero sym o opp c hrem]
      simp [hf]
    · rw [if_neg hs, matchSellRev_rem_zero sym o opp.reverse c hrem]
      simp [hf]

/-- process_market_order on a zero-remaining zero-filled order: no trades, no
    ladder change, status REJECTED written to the store. -/
theorem process_market_noop (b : SimpleOrderBook) (o : Order)
    (hrem : o.remaining_quantity = 0) (hf : o.filled_quantity = 0) :
    b.process_market_order o
      = ({ b with orders := assocSet b.orders o.order_id ({ o with status := OrderStatus.REJECTED }) }, []) := by
  unfold SimpleOrderBook.process_market_order
  dsimp only
  rw [try_match_noop _ _ _ _ hrem hf]
  rcases hs : o.side with _ | _ <;> simp [hs]

/-- process_limit_order on a zero-remaining zero-filled order: no trades, the
    order is stored with status NEW and added to its side's ladder. -/
theorem process_limit_noop (b : SimpleOrderBook) (o : Order)
    (hrem : o.remaining_quantity = 0) (hf : o.filled_quantity = 0) :
    b.process_limit_order o
      = (SimpleOrderBook.add_to_book
          ({ b with orders := assocSet b.orders o.order_id ({ o with status := OrderStatus.NEW }) })
          ({ o with status := OrderStatus.NEW }), []) := by
  unfold SimpleOrderBook.process_limit_order
  dsimp only
  rw [try_match_noop _ _ _ _ hrem hf]
  rcases hs : o.side with _ | _ <;> simp [hs]

/-- add_to_book never touches the order store. -/
theorem add_to_book_orders (b : SimpleOrderBook) (o : Order) :
    (b.add_to_book o).orders = b.orders := by
  unfold SimpleOrderBook.add_to_book
  split <;> rfl

/-- add_to_book of a BUY order updates exactly the bid ladder. -/
theorem add_to_book_bids_of_buy (b : SimpleOrderBook) (o : Order) (h : o.side = Side.BUY) :
    (b.add_to_book o).bids = addToLadder b.bids o := by
  unfold SimpleOrderBook.add_to_book
  rw [if_pos h]

/-- add_to_book of a SELL order updates exactly the ask ladder. -/
theorem add_to_book_asks_of_sell (b : SimpleOrderBook) (o : Order) (h : o.side = Side.SELL) :
    (b.add_to_book o).asks = addToLadder b.asks o := by
  unfold SimpleOrderBook.add_to_book
  rw [if_neg (show ¬ (o.side = Side.BUY) by rw [h]; decide)]

/-- The ladder after addToLadder holds a level at the order's price containing
    the order's id. -/
theorem addToLadder_finds (lad : List (Nat × PriceLevel)) (o : Order) :
    ∃ lvl, assocFind (addToLadder lad o) o.price = some lvl ∧ o.order_id ∈ lvl.orderIds := by
  refine ⟨((assocFind lad o.price).getD ⟨[], 0⟩).add_order o, ?_, ?_⟩
  · unfold addToLadder
    exact assocFind_mapSet_self _ _ _
  · simp [PriceLevel.add_order]

/-- Claim C5 (corrected): add_order performs no quantity validation.  A
    zero-quantity MARKET order ends REJECTED (matching finds nothing) with no
    trades and unchanged ladders; a zero-quantity LIMIT order is NOT rejected:
    it produces no trades but is stored with status NEW and rests in its
    side's ladder at its price. -/
theorem zero_quantity_spec (b : SimpleOrderBook) (o : Order)
    (hq : o.quantity = 0) (hf : o.filled_quantity = 0) :
    (o.order_type = OrderType.MARKET →
      (b.add_order o).2 = [] ∧
      assocFind (b.add_order o).1.orders o.order_id
        = some { o with status := OrderStatus.REJECTED } ∧
      (b.add_order o).1.bids = b.bids ∧ (b.add_order o).1.asks = b.asks) ∧
    (o.order_type = OrderType.LIMIT →
      (b.add_order o).2 = [] ∧
      assocFind (b.add_order o).1.orders o.order_id
        = some { o with status := OrderStatus.NEW } ∧
      ∃ lvl, assocFind (if o.side = Side.BUY then (b.add_order o).1.bids
                        else (b.add_order o).1.asks) o.price = some lvl ∧
             o.order_id ∈ lvl.orderIds) := by
  have hrem : o.remaining_quantity = 0 := by
    simp [Order.remaining_quantity, hq]
  constructor
  · intro hT
    have e : b.add_order o
        = ({ b with orders := assocSet (assocSet b.orders o.order_id o) o.order_id ({ o with status := OrderStatus.REJECTED }) }, []) := by
      unfold SimpleOrderBook.add_order
      rw [hT]
      dsimp only
      rw [process_market_noop _ _ hrem hf]
      simp [hT]
    rw [e]
    exact ⟨rfl, assocFind_assocSet_self _ _ _, rfl, rfl⟩
  · intro hT
    have e : b.add_order o
        = (SimpleOrderBook.add_to_book
            ({ b with orders := assocSet (assocSet b.orders o.order_id o) o.order_id ({ o with status := OrderStatus.NEW }) })
            ({ o with status := OrderStatus.NEW }), []) := by
      unfold SimpleOrderBook.add_order
      rw [hT]
      dsimp only
      rw [process_limit_noop _ _ hrem hf]
      simp [hT]
    rw [e]
    refine ⟨rfl, ?_, ?_⟩
    · rw [add_to_book_orders]
      exact assocFind_assocSet_self _ _ _
    · dsimp only
      by_cases hs : o.side = Side.BUY
      · rw [if_pos hs]
        rw [add_to_book_bids_of_buy _ _ (show ({ o with status := OrderStatus.NEW } : Order).side = Side.BUY from hs)]
        exact addToLadder_finds _ _
      · have hsell : o.side = Side.SELL := by
          cases hq2 : o.side with
          | BUY => exact absurd hq2 hs
          | SELL => rfl
        rw [if_neg hs]
        rw [add_to_book_asks_of_sell _ _ (show ({ o with status := OrderStatus.NEW } : Order).side = Side.SELL from hsell)]
        exact addToLadder_finds _ _

/-- Witness for C5 on `oneAskBook`: the zero-quantity market order is
    REJECTED with untouched ladders; the zero-quantity limit order rests NEW. -/
theorem zero_quantity_spec_witness :
    ((oneAskBook.add_order zMktOrder).2 = [] ∧
      assocFind (oneAskBook.add_order zMktOrder).1.orders zMktOrder.order_id
        = some { zMktOrder with status := OrderStatus.REJECTED } ∧
      (oneAskBook.add_order zMktOrder).1.bids = oneAskBook.bids ∧
      (oneAskBook.add_order zMktOrder).1.asks = oneAskBook.asks) ∧
    ((oneAskBook.add_order zLimOrder).2 = [] ∧
      assocFind (oneAskBook.add_order zLimOrder).1.orders zLimOrder.order_id
        = some { zLimOrder with status := OrderStatus.NEW } ∧
      ∃ lvl, assocFind (if zLimOrder.side = Side.BUY then (oneAskBook.add_order zLimOrder).1.bids
                        else (oneAskBook.add_order zLimOrder).1.asks) zLimOrder.price
               = some lvl ∧
             zLimOrder.order_id ∈ lvl.orderIds) :=
  ⟨(zero_quantity_spec oneAskBook zMktOrder rfl rfl).1 rfl,
   (zero_quantity_spec oneAskBook zLimOrder rfl rfl).2 rfl⟩

/-- Inserting a coherent record keeps the store coherent. -/
theorem storeCoh_set {S0 : List (Nat × Order)} {o0 : Order} {s : List (Nat × Order)}
    (hs : ∀ e ∈ s, coherentOrder S0 o0 e.2)
    (k : Nat) (v : Order) (hv : coherentOrder S0 o0 v) :
    ∀ e ∈ assocSet s k v, coherentOrder S0 o0 e.2 := by
  intro e he
  rcases mem_assocSet he with h | h
  · rw [h]; exact hv
  · exact hs e h

/-- execute_trade preserves coherence: the new store entries only change
    filled quantities, and the emitted trade carries the sell participant's
    price. -/
theorem execute_trade_coherent (sym : Nat) (S0 : List (Nat × Order)) (o0 : Order)
    (c : MatchState) (o m : Order) (q : Nat)
    (hid : o.order_id = o0.order_id) (hpr : o.price = o0.price)
    (hm : coherentOrder S0 o0 m) (hc : coherentState S0 o0 c) :
    coherentState S0 o0 (execute_trade sym c o m q).1 ∧
    ((execute_trade sym c o m q).2.1.order_id = o0.order_id ∧
      (execute_trade sym c o m q).2.1.price = o0.price) ∧
    coherentOrder S0 o0 (execute_trade sym c o m q).2.2 := by
  obtain ⟨hst, htr⟩ := hc
  unfold execute_trade
  dsimp only
  refine ⟨⟨?_, ?_⟩, ⟨hid, hpr⟩, hm⟩
  · exact storeCoh_set
      (storeCoh_set hst o.order_id ({ o with filled_quantity := o.filled_quantity + q })
        (Or.inl ⟨hid, hpr⟩))
      m.order_id ({ m with filled_quantity := m.filled_quantity + q }) hm
  · intro t ht
    rcases List.mem_append.mp ht with h | h
    · exact htr t h
    · rw [List.mem_singleton.mp h]
      by_cases hside : o.side = Side.SELL
      · refine Or.inl ⟨?_, ?_⟩
        · show (if o.side = Side.SELL then o else m).order_id = o0.order_id
          rw [if_pos hside]; exact hid
        · show (if o.side = Side.SELL then o else m).price = o0.price
          rw [if_pos hside]; exact hpr
      · rcases hm with hL | hR
        · refine Or.inl ⟨?_, ?_⟩
          · show (if o.side = Side.SELL then o else m).order_id = o0.order_id
            rw [if_neg hside]; exact hL.1
          · show (if o.side = Side.SELL then o else m).price = o0.price
            rw [if_neg hside]; exact hL.2
        · obtain ⟨mm, hmm1, hmm2⟩ := hR
          refine Or.inr ⟨mm, ?_, ?_⟩
          · show assocFind S0 (if o.side = Side.SELL then o else m).order_id = some mm
            rw [if_neg hside]; exact hmm1
          · show (if o.side = Side.SELL then o else m).price = mm.price
            rw [if_neg hside]; exact hmm2

/-- The inner level loop preserves coherence of the match state and the
    incoming order's identity and price. -/
theorem matchInLevel_coherent (sym : Nat) (S0 : List (Nat × Order)) (o0 : Order) :
    ∀ (ids : List Nat) (o : Order) (tq : Nat) (c : MatchState),
      o.order_id = o0.order_id → o.price = o0.price → coherentState S0 o0 c →
      coherentState S0 o0 (matchInLevel sym o ids tq c).2.2.2 ∧
      (matchInLevel sym o ids tq c).1.order_id = o0.order_id ∧
      (matchInLevel sym o ids tq c).1.price = o0.price := by
  intro ids
  induction ids with
  | nil =>
    intro o tq c hid hpr hc
    exact ⟨hc, hid, hpr⟩
  | cons i rest ih =>
    intro o tq c hid hpr hc
    unfold matchInLevel
    by_cases hrem : o.remaining_quantity = 0
    · rw [if_pos hrem]
      exact ⟨hc, hid, hpr⟩
    · rw [if_neg hrem]
      cases hfind : assocFind c.store i with
      | none =>
        dsimp only
        have h := ih o tq c hid hpr hc
        exact ⟨h.1, h.2.1, h.2.2⟩
      | some m =>
        dsimp only
        by_cases hdead : m.status = OrderStatus.FILLED ∨ m.status = OrderStatus.CANCELLED
        · rw [if_pos hdead]
          have h := ih o tq c hid hpr hc
          exact ⟨h.1, h.2.1, h.2.2⟩
        · rw [if_neg hdead]
          have hm : coherentOrder S0 o0 m := hc.1 (i, m) (assocFind_mem hfind)
          have hexec := execute_trade_coherent sym S0 o0 c o m
            (min o.remaining_quantity m.remaining_quantity) hid hpr hm hc
          by_cases hfull :
              (execute_trade sym c o m (min o.remaining_quantity m.remaining_quantity)).2.2.is_filled = true
          · rw [if_pos hfull]
            exact ih _ _ _ hexec.2.1.1 hexec.2.1.2
              ⟨storeCoh_set hexec.1.1 _ _ hexec.2.2, hexec.1.2⟩
          · rw [if_neg hfull]
            exact ⟨hexec.1, hexec.2.1.1, hexec.2.1.2⟩

/-- The BUY ladder loop preserves coherence. -/
theorem matchBuy_coherent (sym : Nat) (S0 : List (Nat × Order)) (o0 : Order) :
    ∀ (l : List (Nat × PriceLevel)) (o : Order) (c : MatchState),
      o.order_id = o0.order_id → o.price = o0.price → coherentState S0 o0 c →
      coherentState S0 o0 (matchBuy sym o l c).2.2 ∧
      (matchBuy sym o l c).1.order_id = o0.order_id ∧
      (matchBuy sym o l c).1.price = o0.price := by
  intro l
  induction l with
  | nil =>
    intro o c hid hpr hc
    exact ⟨hc, hid, hpr⟩
  | cons e rest ih =>
    obtain ⟨p, lvl⟩ := e
    intro o c hid hpr hc
    unfold matchBuy
    by_cases h1 : o.remaining_quantity = 0
    · rw [if_pos h1]
      exact ⟨hc, hid, hpr⟩
    · rw [if_neg h1]
      by_cases h2 : ¬ (p ≤ o.price)
      · rw [if_pos h2]
        exact ⟨hc, hid, hpr⟩
      · rw [if_neg h2]
        dsimp only
        have hlev := matchInLevel_coherent sym S0 o0 lvl.orderIds o lvl.total_quantity c hid hpr hc
        by_cases h3 : (matchInLevel sym o lvl.orderIds lvl.total_quantity c).2.2.1 = 0
        · rw [if_pos h3]
          exact ih _ _ hlev.2.1 hlev.2.2 hlev.1
        · rw [if_neg h3]
          have h := ih _ _ hlev.2.1 hlev.2.2 hlev.1
          exact ⟨h.1, h.2.1, h.2.2⟩

/-- The SELL ladder loop preserves coherence. -/
theorem matchSellRev_coherent (sym : Nat) (S0 : List (Nat × Order)) (o0 : Order) :
    ∀ (l : List (Nat × PriceLevel)) (o : Order) (c : MatchState),
      o.order_id = o0.order_id → o.price = o0.price → coherentState S0 o0 c →
      coherentState S0 o0 (matchSellRev sym o l c).2.2 ∧
      (matchSellRev sym o l c).1.order_id = o0.order_id ∧
      (matchSellRev sym o l c).1.price = o0.price := by
  intro l
  induction l with
  | nil =>
    intro o c hid hpr hc
    exact ⟨hc, hid, hpr⟩
  | cons e rest ih =>
    obtain ⟨p, lvl⟩ := e
    intro o c hid hpr hc
    unfold matchSellRev
    by_cases h1 : o.remaining_quantity = 0
    · rw [if_pos h1]
      exact ⟨hc, hid, hpr⟩
    · rw [if_neg h1]
      by_cases h2 : ¬ (p ≥ o.price)
      · rw [if_pos h2]
        exact ⟨hc, hid, hpr⟩
      · rw [if_neg h2]
        dsimp only
        have hlev := matchInLevel_coherent sym S0 o0 lvl.orderIds o lvl.total_quantity c hid hpr hc
        by_cases h3 : (matchInLevel sym o lvl.orderIds lvl.total_quantity c).2.2.1 = 0
        · rw [if_pos h3]
          exact ⟨hlev.1, hlev.2.1, hlev.2.2⟩
        · rw [if_neg h3]
          have h := ih _ _ hlev.2.1 hlev.2.2 hlev.1
          exact ⟨h.1, h.2.1, h.2.2⟩

/-- try_match_order preserves coherence of the match state. -/
theorem try_match_coherent (sym : Nat) (S0 : List (Nat × Order)) (o0 : Order)
    (o : Order) (opp : List (Nat × PriceLevel)) (c : MatchState)
    (hid : o.order_id = o0.order_id) (hpr : o.price = o0.price)
    (hc : coherentState S0 o0 c) :
    coherentState S0 o0 (try_match_order sym o opp c).2.2.2 := by
  unfold try_match_order
  by_cases he : opp.isEmpty = true
  · rw [if_pos he]
    exact hc
  · rw [if_neg he]
    by_cases hs : o.side = Side.BUY
    · rw [if_pos hs]
      exact (matchBuy_coherent sym S0 o0 opp o c hid hpr hc).1
    · rw [if_neg hs]
      exact (matchSellRev_coherent sym S0 o0 opp.reverse o c hid hpr hc).1

/-- The trades returned by process_limit_order are exactly the trades of its
    try_match_order pass. -/
theorem process_limit_snd (b : SimpleOrderBook) (o : Order) :
    (b.process_limit_order o).2
      = (try_match_order b.symbol_id o (if o.side = Side.BUY then b.asks else b.bids)
          ⟨b.orders, b.next_trade_id, b.total_volume, b.trade_count, []⟩).2.2.2.trades := by
  unfold SimpleOrderBook.process_limit_order
  dsimp only
  repeat' split
  all_goals rfl

/-- The trades returned by process_market_order are exactly the trades of its
    try_match_order pass. -/
theorem process_market_snd (b : SimpleOrderBook) (o : Order) :
    (b.process_market_order o).2
      = (try_match_order b.symbol_id o (if o.side = Side.BUY then b.asks else b.bids)
          ⟨b.orders, b.next_trade_id, b.total_volume, b.trade_count, []⟩).2.2.2.trades := by
  unfold SimpleOrderBook.process_market_order
  dsimp only

/-- Trades of process_limit_order satisfy `sellSidePrice`. -/
theorem process_limit_trades (S0 : List (Nat × Order)) (o0 : Order)
    (b : SimpleOrderBook) (o : Order)
    (hid : o.order_id = o0.order_id) (hpr : o.price = o0.price)
    (hc0 : coherentState S0 o0 ⟨b.orders, b.next_trade_id, b.total_volume, b.trade_count, []⟩) :
    ∀ t ∈ (b.process_limit_order o).2, sellSidePrice S0 o0 t := by
  have hc' := try_match_coherent b.symbol_id S0 o0 o
    (if o.side = Side.BUY then b.asks else b.bids)
    ⟨b.orders, b.next_trade_id, b.total_volume, b.trade_count, []⟩ hid hpr hc0
  intro t ht
  rw [process_limit_snd] at ht
  exact hc'.2 t ht

/-- Trades of process_market_order satisfy `sellSidePrice`. -/
theorem process_market_trades (S0 : List (Nat × Order)) (o0 : Order)
    (b : SimpleOrderBook) (o : Order)
    (hid : o.order_id = o0.order_id) (hpr : o.price = o0.price)
    (hc0 : coherentState S0 o0 ⟨b.orders, b.next_trade_id, b.total_volume, b.trade_count, []⟩) :
    ∀ t ∈ (b.process_market_order o).2, sellSidePrice S0 o0 t := by
  have hc' := try_match_coherent b.symbol_id S0 o0 o
    (if o.side = Side.BUY then b.asks else b.bids)
    ⟨b.orders, b.next_trade_id, b.total_volume, b.trade_count, []⟩ hid hpr hc0
  intro t ht
  rw [process_market_snd] at ht
  exact hc'.2 t ht

/-- Claim C1 amended (corrected): every trade emitted by add_order carries the
    SELL side's limit price — the price of the incoming order itself when the
    aggressor is the seller, else the price of the pre-state store record at
    the trade's sell_order_id (the resting sell).  The hypothesis says the
    book's order index is well-formed: each stored record is found at its own
    id (true of every index the engine builds, which keys records by id). -/
theorem trade_price_sell_side (b : SimpleOrderBook) (o : Order)
    (hwf : ∀ e ∈ b.orders, assocFind b.orders e.2.order_id = some e.2) :
    ∀ t ∈ (b.add_order o).2, sellSidePrice b.orders o t := by
  have hc0 : coherentState b.orders o
      ⟨assocSet b.orders o.order_id o, b.next_trade_id, b.total_volume, b.trade_count, []⟩ := by
    constructor
    · intro e he
      rcases mem_assocSet he with h | h
      · rw [h]
        exact Or.inl ⟨rfl, rfl⟩
      · exact Or.inr ⟨e.2, hwf e h, rfl⟩
    · intro t ht
      cases ht
  intro t ht
  unfold SimpleOrderBook.add_order at ht
  dsimp only at ht
  cases hT : o.order_type with
  | LIMIT =>
    rw [hT] at ht
    dsimp only at ht
    exact process_limit_trades b.orders o _ o rfl rfl hc0 t ht
  | MARKET =>
    rw [hT] at ht
    dsimp only at ht
    exact process_market_trades b.orders o _ o rfl rfl hc0 t ht
  | STOP =>
    rw [hT] at ht
    dsimp only at ht
    exact process_limit_trades b.orders o _ o rfl rfl hc0 t ht

/-- Witness for the amended C1: the well-formed-index hypothesis holds for
    `preSellBook`, the emitted trade satisfies `sellSidePrice`, and that trade
    concretely carries the aggressor's 4900. -/
theorem trade_price_sell_side_witness :
    (∀ e ∈ preSellBook.orders, assocFind preSellBook.orders e.2.order_id = some e.2) ∧
    sellSidePrice preSellBook.orders sellAggr ⟨1, 1, 2, 100, 100, 4900⟩ ∧
    (preSellBook.add_order sellAggr).2 = [⟨1, 1, 2, 100, 100, 4900⟩] :=
  ⟨by decide,
   trade_price_sell_side preSellBook sellAggr (by decide) ⟨1, 1, 2, 100, 100, 4900⟩ (by decide),
   by decide⟩

end LOB
